import Mathlib

/-!
Verification of the Graphene PAL loader bootstrap (`src/Pal/src/db_main.c`).

Shallow embedding: C strings are modelled as `List Char` (`Str`), the NUL
sentinel as the character of code 0, NULL-terminated arrays of strings as
`List Str`, and host I/O calls (`_DkStreamOpen`, `_DkStreamRead`, allocation,
...) as explicit outcome oracles carried in records, so that every failure
branch of the C code is represented.  Values of macros from headers that are
not part of the repository snapshot (`PAL_ERROR_*`, `PAL_ACCESS_*`, ...) are
fixed arbitrary distinct constants; only their distinctness and sign are ever
used.
-/

namespace Graphene

/-- C strings are modelled as lists of characters. -/
abbrev Str := List Char

/-- The NUL sentinel byte terminating C strings. -/
def nulChar : Char := Char.ofNat 0

/-- Error code `PAL_ERROR_INVAL` (header not in the snapshot; only positivity
of the code matters). -/
def PAL_ERROR_INVAL : Int := 4

/-- Error code `PAL_ERROR_DENIED`. -/
def PAL_ERROR_DENIED : Int := 6

/-- Error code `PAL_ERROR_NOMEM`. -/
def PAL_ERROR_NOMEM : Int := 16

/-! ## Sentinel-table file loader: `load_cstring_array` (db_main.c:205-257)

The host-stream calls made by `load_cstring_array` are modelled by a record
of their outcomes: `openRet` for `_DkStreamOpen`, `attrRet` for
`_DkStreamAttributesQueryByHandle`, `bufAllocOk` for `malloc(file_size)`,
`readRet` for `_DkStreamRead`, `arrAllocOk` for the pointer-array `malloc`,
`closeRet` for `_DkObjectClose`, and `content` for the bytes the read
delivers (whose length is the `pending_size` reported by the attribute
query). -/

/-- Outcomes of the host calls made by one invocation of
`load_cstring_array`, together with the file bytes. -/
structure HostFile where
  openRet : Int
  attrRet : Int
  bufAllocOk : Bool
  readRet : Int
  arrAllocOk : Bool
  closeRet : Int
  content : Str
deriving DecidableEq

/-- Scanner for the string-pointer table of `load_cstring_array`: `acc` is
the segment accumulated since the last sentinel; every sentinel byte closes
one entry.  A non-empty final accumulator would be the bytes after the last
sentinel of a buffer that does not end in the sentinel; such buffers are
rejected before the table is built (db_main.c:227-230), so this case never
arises on the inputs the function reaches (it is kept as one entry for
definiteness). -/
def cstringsGo (acc : Str) : Str → List Str
  | [] => if acc.isEmpty then [] else [acc]
  | c :: rest => if c = nulChar then acc :: cstringsGo [] rest else cstringsGo (acc ++ [c]) rest

/-- The string-pointer table built by `load_cstring_array` over a buffer
(db_main.c:232-248): the first entry points at the start of the buffer, one
further entry points right after each interior NUL, and each entry is the
C-string there — i.e. the sentinel-delimited segments of the buffer in file
order. -/
def cstrings (l : Str) : List Str := cstringsGo [] l

/-- `load_cstring_array(uri, res)` (db_main.c:205-257): open the file, query
its size, allocate a buffer, read, check that a non-empty buffer ends in the
NUL sentinel, allocate the pointer array, publish it in `*res`, and close.
Every `goto out_fail` path returns the negative code and leaves `*res`
untouched; the success path sets `*res` and returns the result of
`_DkObjectClose`.  The returned pair is (return value, final value of
`*res`). -/
def load_cstring_array (f : HostFile) (res : List Str) : Int × List Str :=
  if f.openRet < 0 then (f.openRet, res)
  else if f.attrRet < 0 then (f.attrRet, res)
  else if f.bufAllocOk = false then (-PAL_ERROR_NOMEM, res)
  else if f.readRet < 0 then (f.readRet, res)
  else if f.content ≠ [] ∧ f.content.getLast? ≠ some nulChar then (-PAL_ERROR_INVAL, res)
  else if f.arrAllocOk = false then (-PAL_ERROR_NOMEM, res)
  else (f.closeRet, cstrings f.content)

/-- A `HostFile` on which every host call succeeds and the read delivers
`content`. -/
def okFile (content : Str) : HostFile :=
  { openRet := 0, attrRet := 0, bufAllocOk := true, readRet := 0,
    arrAllocOk := true, closeRet := 0, content := content }

/-! ## Environment merge: `insert_envs_from_manifest` (db_main.c:70-157)

The manifest argument models the chain of lookups at db_main.c:74-84:
`none` stands for "no manifest root, or no `loader` table, or no `loader.env`
table", and `some m` carries the key/value entries of `loader.env` in the
declaration order that `toml_key_in` enumerates (TOML table keys are unique,
but no theorem below relies on that).  Allocations inside the function are
modelled as succeeding: the claims under verification do not concern the
`calloc`/`malloc_copy`/`toml_rtos` out-of-memory branches. -/

/-- The key of an environment entry: the characters before the first `=`
(what the C code isolates by overwriting the `=` found by `strchr` with a
temporary NUL). -/
def keyOf (e : Str) : Str := e.takeWhile (fun c => c ≠ '=')

/-- Render one manifest `loader.env` entry as `KEY=VALUE`
(the `alloc_concat3` at db_main.c:148). -/
def renderEnv (kv : Str × Str) : Str := kv.1 ++ '=' :: kv.2

/-- The keys of the manifest `loader.env` table. -/
def mkeys (m : List (Str × Str)) : List Str := m.map Prod.fst

/-- The first loop of `insert_envs_from_manifest` (db_main.c:91-105): walk
the original environment; an entry without `=` aborts with
`-PAL_ERROR_INVAL`; otherwise count the entries and how many of their keys
occur in the manifest table.  Returns `(orig_envs_cnt, overwrite_cnt)`. -/
def scanOrigEnvs (m : List (Str × Str)) : List Str → Except Int (Nat × Nat)
  | [] => .ok (0, 0)
  | e :: rest =>
    if ¬ e.contains '=' then .error (-PAL_ERROR_INVAL)
    else
      match scanOrigEnvs m rest with
      | .error x => .error x
      | .ok (o, w) => .ok (o + 1, if (mkeys m).contains (keyOf e) then w + 1 else w)

/-- `insert_envs_from_manifest(envpp)` (db_main.c:70-157).  With no manifest
`loader.env` table or an empty one, return success leaving `*envpp`
untouched (db_main.c:74-89).  Otherwise the first loop validates/counts the
original entries; then the new vector is built: original entries whose key
is not a manifest key, in order (second loop, db_main.c:116-132), followed
by every manifest entry rendered `KEY=VALUE` in declaration order (third
loop, db_main.c:135-152). -/
def insert_envs_from_manifest (menv : Option (List (Str × Str))) (envs : List Str) :
    Except Int (List Str) :=
  match menv with
  | none => .ok envs
  | some m =>
    if m.length = 0 then .ok envs
    else
      match scanOrigEnvs m envs with
      | .error x => .error x
      | .ok _ =>
        .ok ((envs.filter (fun e => !((mkeys m).contains (keyOf e)))) ++ m.map renderEnv)

/-! ## Preload libraries: `load_libraries` (db_main.c:30-66) -/

/-- The scanning loop of `load_libraries` (db_main.c:52-65): `acc` is the
segment accumulated since `library_name`; at a comma or at the end of the
string, a non-empty accumulated segment becomes one library name, and empty
segments are skipped (`c > library_name` fails). -/
def preloadSegs : Str → Str → List Str
  | [], acc => if acc.isEmpty then [] else [acc]
  | c :: rest, acc =>
    if c = ',' then (if acc.isEmpty then [] else [acc]) ++ preloadSegs rest []
    else preloadSegs rest (acc ++ [c])

/-- Run `load_elf_object` over the segment list: `loadRet` is the outcome of
each load; a negative outcome triggers `INIT_FAIL` immediately
(db_main.c:56-57).  Returns (segments attempted in order, whether a fatal
failure occurred). -/
def runPreloads (loadRet : Str → Int) : List Str → List Str × Bool
  | [] => ([], false)
  | l :: ls =>
    if loadRet l < 0 then ([l], true)
    else
      let r := runPreloads loadRet ls
      (l :: r.1, r.2)

/-- `load_libraries` (db_main.c:30-66): `preload` is the parsed
`loader.preload` string (`none` when the manifest or the key is absent); an
absent or empty string loads nothing; otherwise the comma-separated
non-empty segments are loaded left to right. -/
def load_libraries (preload : Option Str) (loadRet : Str → Int) : List Str × Bool :=
  match preload with
  | none => ([], false)
  | some s => if s.length = 0 then ([], false) else runPreloads loadRet (preloadSegs s [])

/-- Comma splitting as the spec words it, for comparison with the loop of
`load_libraries`: cut the string at every comma into (possibly empty)
segments. -/
def splitCommas : Str → List Str
  | [] => [[]]
  | c :: rest =>
    if c = ',' then [] :: splitCommas rest
    else
      match splitCommas rest with
      | [] => [[c]]
      | seg :: segs => (c :: seg) :: segs

/-- The spec-side characterization of the preload segments: split on commas
and drop the empty segments. -/
def commaSegmentsSpec (s : Str) : List Str := (splitCommas s).filter (fun t => !t.isEmpty)

/-! ## Debug stream: `set_debug_type` (db_main.c:159-199) -/

/-- One `_DkStreamOpen` request: URI and the access/share/create flags
passed. -/
structure OpenCall where
  uri : Str
  access : Nat
  share : Nat
  create : Nat
deriving DecidableEq

/-- Flag `PAL_ACCESS_WRONLY` (symbolic value; header not in the snapshot). -/
def PAL_ACCESS_WRONLY : Nat := 2

/-- Flag `PAL_SHARE_OWNER_W` (owner-write share mode, symbolic value). -/
def PAL_SHARE_OWNER_W : Nat := 128

/-- Flag `PAL_CREATE_TRY` (open or create, symbolic value). -/
def PAL_CREATE_TRY : Nat := 4

/-- The open request issued for `loader.debug_type = "inline"`
(db_main.c:176): the host console device `dev:tty` for write. -/
def ttyCall : OpenCall :=
  { uri := ("dev:tty").toList, access := PAL_ACCESS_WRONLY, share := 0, create := 0 }

/-- The open request issued for `loader.debug_type = "file"`
(db_main.c:183-184): the given path, write access, owner-write share,
open-or-create. -/
def debugFileCall (p : Str) : OpenCall :=
  { uri := p, access := PAL_ACCESS_WRONLY, share := PAL_SHARE_OWNER_W,
    create := PAL_CREATE_TRY }

/-- Outcome of `set_debug_type`: early return leaving
`g_pal_control.debug_stream` at its zero-initialized NULL (`keepDefault`),
assignment of a handle (`published`, with `none` standing for the NULL
handle of the `"none"` case), or `INIT_FAIL`. -/
inductive DebugOutcome where
  | keepDefault
  | published (call : Option OpenCall)
  | fatal (msg : String)
deriving DecidableEq

/-- The two manifest keys `set_debug_type` reads (values `none` when the key
is absent; parse failures of `toml_string_in` are not modelled). -/
structure DebugCfg where
  debug_type : Option Str
  debug_file : Option Str

/-- `set_debug_type` (db_main.c:159-199).  `root = none` models an absent
manifest; `openRet` gives the result of each `_DkStreamOpen`. -/
def set_debug_type (root : Option DebugCfg) (openRet : OpenCall → Int) : DebugOutcome :=
  match root with
  | none => .keepDefault
  | some cfg =>
    match cfg.debug_type with
    | none => .keepDefault
    | some dt =>
      if dt = ("inline").toList then
        if openRet ttyCall < 0 then .fatal "Cannot open debug stream"
        else .published (some ttyCall)
      else if dt = ("file").toList then
        match cfg.debug_file with
        | none => .fatal "Cannot find/parse loader.debug_file"
        | some p =>
          if openRet (debugFileCall p) < 0 then .fatal "Cannot open debug stream"
          else .published (some (debugFileCall p))
      else if dt = ("none").toList then .published none
      else .fatal "Unknown loader.debug_type (allowed: inline, file, none)"

/-! ## Argument building step of `pal_main` (db_main.c:403-460)

The three manifest options are passed as already-parsed values
(`loader.argv0_override` and `loader.argv_src_file` as `Option Str`,
`loader.insecure__use_cmdline_argv` as `Bool` after its 0/1 validation at
db_main.c:422-430); an absent manifest corresponds to all three at their
defaults.  `files` maps a URI to the host-call outcomes that
`load_cstring_array` will see for it. -/

/-- The `loader.argv0_override` step (db_main.c:403-420): with an override
and an empty argument vector, synthesize a two-slot vector (value plus
sentinel); with an override and a non-empty vector, replace slot 0 only. -/
def applyArgv0 (ov : Option Str) (hostArgs : List Str) : List Str :=
  match ov, hostArgs with
  | none, _ => hostArgs
  | some o, [] => [o]
  | some o, _ :: rest => o :: rest

/-- Fatal message of the unconfigured-argv branch (db_main.c:457-458). -/
def policyMsg : String :=
  "argv handling was not configured in the manifest, but cmdline arguments were specified"

/-- Fatal message of the argv-source-file load failure (db_main.c:453). -/
def argvLoadFailMsg : String := "Cannot load arguments from loader.argv_src_file"

/-- The argv-building step of `pal_main` (db_main.c:403-460): apply the
argv0 override; if `loader.insecure__use_cmdline_argv` is set, keep the
(possibly overridden) host arguments; otherwise, if `loader.argv_src_file`
is set, replace the arguments by the sentinel-delimited file contents via
`load_cstring_array` (fatal if it fails); otherwise fail fatally unless an
argv0 override is present and at most one argument slot is filled
(db_main.c:456-459: `!argv0_overridden || (arguments[0] && arguments[1])`). -/
def buildArgv (ov : Option Str) (useCmdline : Bool) (srcFile : Option Str)
    (files : Str → HostFile) (hostArgs : List Str) : Except String (List Str) :=
  let args1 := applyArgv0 ov hostArgs
  if useCmdline then .ok args1
  else
    match srcFile with
    | some uri =>
      let r := load_cstring_array (files uri) args1
      if r.1 < 0 then .error argvLoadFailMsg
      else .ok r.2
    | none =>
      if ov.isNone ∨ 2 ≤ args1.length then .error policyMsg
      else .ok args1

/-! ## Manifest resolution step of `pal_main` (db_main.c:281-316) -/

/-- Host-call outcomes for the manifest-resolution step:
`execNameRet`/`manifestNameRet` model `_DkStreamGetName` on the executable
and manifest handles, `normPath` models `get_norm_path`, and `openRet` the
result of `_DkStreamOpen` on a URI (0 on success, as checked by `if (ret)`
at db_main.c:308/312). -/
structure ResolveEnv where
  execNameRet : Except Int Str
  manifestNameRet : Except Int Str
  normPath : Str → Except Int Str
  openRet : Str → Int

/-- Where the manifest handle came from: supplied by the host (its resolved
name becomes the manifest URI), opened at `<normalized exec>.manifest`, or
opened at the fixed literal fallback location. -/
inductive ManifestSource where
  | supplied (uri : Str)
  | derivedExec (uri : Str)
  | fallback
deriving DecidableEq

/-- The fixed manifest suffix appended at db_main.c:306. -/
def manifestSuffix : Str := (".manifest").toList

/-- The fixed literal alternate manifest location `file:manifest`
(db_main.c:310, `URI_PREFIX_FILE "manifest"`). -/
def fallbackUri : Str := ("file:manifest").toList

/-- The part of manifest resolution after the executable name was fetched
(db_main.c:289-316). -/
def resolveFromNames (hasManifest : Bool) (execUri : Option Str) (env : ResolveEnv) :
    Except String ManifestSource :=
  if hasManifest then
    match env.manifestNameRet with
    | .error _ => .error "Cannot get manifest name"
    | .ok n => .ok (.supplied n)
  else
    match execUri with
    | none => .error "Must have manifest or executable"
    | some eu =>
      match env.normPath eu with
      | .error _ => .error "Cannot normalize exec_uri"
      | .ok norm =>
        if env.openRet (norm ++ manifestSuffix) = 0 then
          .ok (.derivedExec (norm ++ manifestSuffix))
        else if env.openRet fallbackUri = 0 then .ok .fallback
        else .error "Cannot find manifest file"

/-- The manifest-resolution step of `pal_main` (db_main.c:281-316): first
the executable name is fetched when an executable handle exists
(db_main.c:281-287), then the manifest handle/URI is resolved. -/
def resolveManifest (hasManifest hasExec : Bool) (env : ResolveEnv) :
    Except String ManifestSource :=
  if hasExec then
    match env.execNameRet with
    | .error _ => .error "Cannot get executable name"
    | .ok eu => resolveFromNames hasManifest (some eu) env
  else resolveFromNames hasManifest none env

/-! ## Theorems -/

/-- C4: for every input file read by `load_cstring_array`: a non-empty byte
buffer whose last byte is not the sentinel terminator is rejected with the
format error `-PAL_ERROR_INVAL`; an empty file succeeds and yields a table
with no entries (only the terminating marker); and a file containing the
bytes `a NUL b NUL` yields exactly the two-entry sequence `["a", "b"]` (plus
the terminating marker), in file order. -/
theorem c4_cstring_array_format (res : List Str) (content : Str) :
    (content ≠ [] → content.getLast? ≠ some nulChar →
      load_cstring_array (okFile content) res = (-PAL_ERROR_INVAL, res)) ∧
    load_cstring_array (okFile []) res = (0, []) ∧
    load_cstring_array (okFile ['a', nulChar, 'b', nulChar]) res = (0, [['a'], ['b']]) := by
  refine ⟨fun h1 h2 => ?_, rfl, rfl⟩
  simp [load_cstring_array, okFile, h1, h2]

/-- Witness for C4 at concrete inputs. -/
theorem c4_cstring_array_format_witness :
    load_cstring_array (okFile ['x']) [] = (-PAL_ERROR_INVAL, []) ∧
    load_cstring_array (okFile []) [] = (0, []) ∧
    load_cstring_array (okFile ['a', nulChar, 'b', nulChar]) [] = (0, [['a'], ['b']]) :=
  ⟨(c4_cstring_array_format [] ['x']).1 (by decide) (by decide),
   (c4_cstring_array_format [] ['x']).2.1,
   (c4_cstring_array_format [] ['x']).2.2⟩

/-- C5: whenever `load_cstring_array` fails at the open, attribute-query,
allocation, read, or format-check stage, it returns a negative error code
and the caller-visible result `*res` is left unchanged — no partial table is
published on such a failure path. -/
theorem c5_fail_no_publish (f : HostFile) (res : List Str)
    (h : f.openRet < 0 ∨ f.attrRet < 0 ∨ f.bufAllocOk = false ∨ f.readRet < 0 ∨
         (f.content ≠ [] ∧ f.content.getLast? ≠ some nulChar) ∨ f.arrAllocOk = false) :
    (load_cstring_array f res).1 < 0 ∧ (load_cstring_array f res).2 = res := by
  unfold load_cstring_array
  split_ifs with h1 h2 h3 h4 h5 h6
  · exact ⟨h1, rfl⟩
  · exact ⟨h2, rfl⟩
  · exact ⟨by norm_num [PAL_ERROR_NOMEM], rfl⟩
  · exact ⟨h4, rfl⟩
  · exact ⟨by norm_num [PAL_ERROR_INVAL], rfl⟩
  · exact ⟨by norm_num [PAL_ERROR_NOMEM], rfl⟩
  · rcases h with h | h | h | h | h | h <;> simp_all

/-- A `HostFile` whose open fails, for the C5 witness. -/
def openFailFile : HostFile :=
  { openRet := -1, attrRet := 0, bufAllocOk := true, readRet := 0,
    arrAllocOk := true, closeRet := 0, content := [] }

/-- Witness for C5: a failing open leaves the previous result in place. -/
theorem c5_fail_no_publish_witness :
    (load_cstring_array openFailFile [['q']]).1 < 0 ∧
    (load_cstring_array openFailFile [['q']]).2 = [['q']] :=
  c5_fail_no_publish openFailFile [['q']] (Or.inl (by decide))

theorem length_filter_not_add {α : Type} (p : α → Bool) (l : List α) :
    (l.filter (fun a => !(p a))).length + (l.filter p).length = l.length := by
  induction l with
  | nil => simp
  | cons a l ih =>
    cases h : p a
    · simp [List.filter_cons, h]
      omega
    · simp [List.filter_cons, h]
      omega

theorem scanOrigEnvs_ok (m : List (Str × Str)) (envs : List Str)
    (he : ∀ e ∈ envs, e.contains '=' = true) :
    scanOrigEnvs m envs =
      .ok (envs.length, (envs.filter (fun e => (mkeys m).contains (keyOf e))).length) := by
  induction envs with
  | nil => rfl
  | cons e rest ih =>
    have h1 : e.contains '=' = true := he e (List.mem_cons_self e rest)
    have h2 := ih (fun x hx => he x (List.mem_cons_of_mem e hx))
    simp only [scanOrigEnvs, h1, not_true_eq_false, if_false, h2, List.filter_cons,
      List.length_cons]
    by_cases h3 : keyOf e ∈ mkeys m <;> simp [h3]

theorem scanOrigEnvs_error (m : List (Str × Str)) (envs : List Str) (e : Str)
    (hmem : e ∈ envs) (hne : e.contains '=' = false) :
    scanOrigEnvs m envs = .error (-PAL_ERROR_INVAL) := by
  induction envs with
  | nil => cases hmem
  | cons a rest ih =>
    by_cases ha : a.contains '=' = true
    · rcases List.mem_cons.1 hmem with rfl | hmem2
      · rw [ha] at hne
        cases hne
      · simp only [scanOrigEnvs, ha, not_true_eq_false, if_false, ih hmem2]
    · have ha2 : ¬ (a.contains '=' = true) := ha
      simp only [scanOrigEnvs]
      rw [if_pos ha2]

/-- C2: for every pre-merge environment of `KEY=VALUE` strings and every
non-empty manifest `loader.env` table, `insert_envs_from_manifest` produces
exactly the pre-merge entries whose key is not a manifest key, in their
original relative order, followed by one `KEY=VALUE` entry per manifest
table entry in declaration order; the resulting slot count is
`original + manifest - overwritten`, and the overwritten count is bounded by
the original count (so the difference is non-negative). -/
theorem c2_env_merge (m : List (Str × Str)) (envs : List Str)
    (hm : m ≠ []) (he : ∀ e ∈ envs, e.contains '=' = true) :
    insert_envs_from_manifest (some m) envs =
      .ok ((envs.filter (fun e => !((mkeys m).contains (keyOf e)))) ++ m.map renderEnv) ∧
    ((envs.filter (fun e => !((mkeys m).contains (keyOf e)))) ++ m.map renderEnv).length
      = envs.length + m.length
        - (envs.filter (fun e => (mkeys m).contains (keyOf e))).length ∧
    (envs.filter (fun e => (mkeys m).contains (keyOf e))).length ≤ envs.length := by
  have hlen : m.length ≠ 0 := fun h => hm (List.length_eq_zero.1 h)
  have hscan := scanOrigEnvs_ok m envs he
  have hcompl := length_filter_not_add (fun e => (mkeys m).contains (keyOf e)) envs
  have hle : (envs.filter (fun e => (mkeys m).contains (keyOf e))).length ≤ envs.length :=
    List.length_filter_le _ _
  refine ⟨?_, ?_, hle⟩
  · simp only [insert_envs_from_manifest, hlen, if_false, hscan]
  · simp only [List.length_append, List.length_map]
    omega

/-- Example manifest `loader.env` table for the C2 witness. -/
def mEx : List (Str × Str) := [(("K").toList, ("v").toList)]

/-- Example pre-merge environment for the C2 witness. -/
def envsEx : List Str := [("K=old").toList, ("A=1").toList]

/-- Witness for C2 at a concrete manifest table and environment. -/
theorem c2_env_merge_witness :
    insert_envs_from_manifest (some mEx) envsEx =
      .ok ((envsEx.filter (fun e => !((mkeys mEx).contains (keyOf e)))) ++ mEx.map renderEnv) ∧
    ((envsEx.filter (fun e => !((mkeys mEx).contains (keyOf e)))) ++ mEx.map renderEnv).length
      = envsEx.length + mEx.length
        - (envsEx.filter (fun e => (mkeys mEx).contains (keyOf e))).length ∧
    (envsEx.filter (fun e => (mkeys mEx).contains (keyOf e))).length ≤ envsEx.length :=
  c2_env_merge mEx envsEx (by decide) (by decide)

/-- C10: if the manifest declares at least one `loader.env` entry, a
pre-merge entry without `=` makes `insert_envs_from_manifest` return
`-PAL_ERROR_INVAL`; with no manifest `loader.env` table or an empty one, the
merge returns success with the pre-merge vector unchanged, whatever its
entries look like. -/
theorem c10_env_separator_check (m : List (Str × Str)) (envs : List Str) (e : Str) :
    insert_envs_from_manifest none envs = .ok envs ∧
    insert_envs_from_manifest (some []) envs = .ok envs ∧
    (m ≠ [] → e ∈ envs → e.contains '=' = false →
      insert_envs_from_manifest (some m) envs = .error (-PAL_ERROR_INVAL)) := by
  refine ⟨rfl, rfl, fun hm hmem hne => ?_⟩
  have hlen : m.length ≠ 0 := fun h => hm (List.length_eq_zero.1 h)
  simp only [insert_envs_from_manifest, hlen, if_false, scanOrigEnvs_error m envs e hmem hne]

/-- Witness for C10: a malformed entry is rejected exactly when the manifest
table is non-empty. -/
theorem c10_env_separator_check_witness :
    insert_envs_from_manifest none [("NOEQ").toList] = .ok [("NOEQ").toList] ∧
    insert_envs_from_manifest (some []) [("NOEQ").toList] = .ok [("NOEQ").toList] ∧
    insert_envs_from_manifest (some mEx) [("NOEQ").toList] = .error (-PAL_ERROR_INVAL) :=
  ⟨(c10_env_separator_check mEx [("NOEQ").toList] (("NOEQ").toList)).1,
   (c10_env_separator_check mEx [("NOEQ").toList] (("NOEQ").toList)).2.1,
   (c10_env_separator_check mEx [("NOEQ").toList] (("NOEQ").toList)).2.2
     (by decide) (by decide) (by decide)⟩

theorem splitCommas_cons_exists (s : Str) : ∃ seg segs, splitCommas s = seg :: segs := by
  cases s with
  | nil => exact ⟨[], [], rfl⟩
  | cons c rest =>
    by_cases h : c = ','
    · exact ⟨[], splitCommas rest, by simp [splitCommas, h]⟩
    · cases hsp : splitCommas rest with
      | nil => exact ⟨[c], [], by simp [splitCommas, h, hsp]⟩
      | cons seg segs => exact ⟨c :: seg, segs, by simp [splitCommas, h, hsp]⟩

theorem preloadSegs_eq (s : Str) : ∀ acc : Str,
    preloadSegs s acc =
      ((acc ++ (splitCommas s).headI) :: (splitCommas s).tail).filter (fun t => !t.isEmpty) := by
  induction s with
  | nil =>
    intro acc
    by_cases h : acc.isEmpty <;>
      simp [preloadSegs, splitCommas, h, List.filter_cons]
  | cons c rest ih =>
    intro acc
    by_cases h : c = ','
    · subst h
      obtain ⟨seg, segs, hsp⟩ := splitCommas_cons_exists rest
      have ih0 := ih []
      rw [hsp] at ih0
      simp only [List.headI, List.tail, List.nil_append] at ih0
      simp only [preloadSegs, if_pos rfl, splitCommas, hsp, ih0, List.headI, List.tail,
        List.append_nil, List.filter_cons]
      by_cases ha : acc.isEmpty <;> simp [ha, List.filter_cons]
    · obtain ⟨seg, segs, hsp⟩ := splitCommas_cons_exists rest
      have ihc := ih (acc ++ [c])
      rw [hsp] at ihc
      simp only [List.headI, List.tail] at ihc
      simp only [preloadSegs, h, if_false, splitCommas, hsp, ihc, List.headI, List.tail]
      have : acc ++ [c] ++ seg = acc ++ c :: seg := by simp
      rw [this]

theorem preloadSegs_spec (s : Str) : preloadSegs s [] = commaSegmentsSpec s := by
  obtain ⟨seg, segs, hsp⟩ := splitCommas_cons_exists s
  rw [preloadSegs_eq s [], commaSegmentsSpec, hsp]
  simp [List.headI, List.tail]

theorem runPreloads_ok (loadRet : Str → Int) (ls : List Str)
    (h : ∀ l ∈ ls, 0 ≤ loadRet l) : runPreloads loadRet ls = (ls, false) := by
  induction ls with
  | nil => rfl
  | cons l ls ih =>
    have h1 : ¬ loadRet l < 0 := not_lt.2 (h l (List.mem_cons_self l ls))
    simp [runPreloads, h1, ih (fun x hx => h x (List.mem_cons_of_mem l hx))]

theorem runPreloads_fail (loadRet : Str → Int) (ls : List Str)
    (h : ∃ l ∈ ls, loadRet l < 0) : (runPreloads loadRet ls).2 = true := by
  induction ls with
  | nil => simp at h
  | cons l ls ih =>
    by_cases h1 : loadRet l < 0
    · simp [runPreloads, h1]
    · obtain ⟨x, hx, hlt⟩ := h
      rcases List.mem_cons.1 hx with rfl | hx2
      · exact absurd hlt h1
      · simp [runPreloads, h1, ih ⟨x, hx2, hlt⟩]

/-- C6: `load_libraries` splits `loader.preload` on commas, skips the empty
segments, and attempts to load exactly the non-empty segments, one attempt
each, left to right; an absent option or an empty string causes no attempt;
an individual load failure is fatal; and `"a.so,,b.so"` yields exactly the
two attempts `"a.so"` then `"b.so"`. -/
theorem c6_preload_split (s : Str) (loadRet : Str → Int) :
    load_libraries none loadRet = ([], false) ∧
    load_libraries (some []) loadRet = ([], false) ∧
    ((∀ seg ∈ commaSegmentsSpec s, 0 ≤ loadRet seg) →
      load_libraries (some s) loadRet = (commaSegmentsSpec s, false)) ∧
    ((∃ seg ∈ commaSegmentsSpec s, loadRet seg < 0) →
      (load_libraries (some s) loadRet).2 = true) ∧
    ((∀ seg, 0 ≤ loadRet seg) →
      load_libraries (some (("a.so,,b.so").toList)) loadRet =
        ([("a.so").toList, ("b.so").toList], false)) := by
  refine ⟨rfl, rfl, fun h => ?_, fun h => ?_, fun h => ?_⟩
  · cases hs : s with
    | nil => simp [load_libraries, commaSegmentsSpec, splitCommas]
    | cons c rest =>
      rw [hs] at h
      simp only [load_libraries, List.length_cons, Nat.succ_ne_zero, if_false]
      rw [preloadSegs_spec, runPreloads_ok loadRet _ h]
  · cases hs : s with
    | nil =>
      rw [hs] at h
      simp [commaSegmentsSpec, splitCommas] at h
    | cons c rest =>
      rw [hs] at h
      simp only [load_libraries, List.length_cons, Nat.succ_ne_zero, if_false]
      rw [preloadSegs_spec]
      exact runPreloads_fail loadRet _ h
  · have hne : ¬ ((("a.so,,b.so").toList).length = 0) := by decide
    have hsegs : preloadSegs (("a.so,,b.so").toList) [] =
        [("a.so").toList, ("b.so").toList] := by decide
    simp only [load_libraries, hne, if_false, hsegs]
    exact runPreloads_ok loadRet _ (fun l _ => h l)

/-- Witness for C6: on `"a.so,,b.so"`, all-successful loads attempt exactly
`"a.so"` then `"b.so"`, and a failing load is fatal. -/
theorem c6_preload_split_witness :
    load_libraries (some (("a.so,,b.so").toList)) (fun _ => 0) =
      ([("a.so").toList, ("b.so").toList], false) ∧
    (load_libraries (some (("a.so,,b.so").toList)) (fun _ => -1)).2 = true :=
  ⟨(c6_preload_split (("a.so,,b.so").toList) (fun _ => 0)).2.2.2.2 (fun _ => by norm_num),
   (c6_preload_split (("a.so,,b.so").toList) (fun _ => -1)).2.2.2.1
     ⟨("a.so").toList, by decide, by norm_num⟩⟩

/-- C7: `set_debug_type` maps `loader.debug_type` as follows: unset (or no
manifest) defaults to no debug stream; `"none"` publishes the NULL handle
(no stream); `"inline"` opens the host console device `dev:tty` for write
and publishes its handle; `"file"` requires `loader.debug_file` (its absence
is fatal) and opens/creates that path for exclusive-owner write; any other
string is a fatal configuration error. -/
theorem c7_debug_type_resolution (df : Option Str) (openRet : OpenCall → Int) (dt : Str) :
    set_debug_type none openRet = .keepDefault ∧
    set_debug_type (some ⟨none, df⟩) openRet = .keepDefault ∧
    set_debug_type (some ⟨some (("none").toList), df⟩) openRet = .published none ∧
    (0 ≤ openRet ttyCall →
      set_debug_type (some ⟨some (("inline").toList), df⟩) openRet =
        .published (some ttyCall)) ∧
    set_debug_type (some ⟨some (("file").toList), none⟩) openRet =
      .fatal "Cannot find/parse loader.debug_file" ∧
    (∀ p, 0 ≤ openRet (debugFileCall p) →
      set_debug_type (some ⟨some (("file").toList), some p⟩) openRet =
        .published (some (debugFileCall p))) ∧
    (dt ≠ ("inline").toList → dt ≠ ("file").toList → dt ≠ ("none").toList →
      set_debug_type (some ⟨some dt, df⟩) openRet =
        .fatal "Unknown loader.debug_type (allowed: inline, file, none)") := by
  have hni : ("none").toList ≠ ("inline").toList := by decide
  have hnf : ("none").toList ≠ ("file").toList := by decide
  have hfi : ("file").toList ≠ ("inline").toList := by decide
  refine ⟨rfl, rfl, ?_, fun h => ?_, ?_, fun p h => ?_, fun h1 h2 h3 => ?_⟩
  · simp [set_debug_type, hni, hnf]
  · simp [set_debug_type, not_lt.2 h]
  · simp [set_debug_type, hfi]
  · simp [set_debug_type, hfi, not_lt.2 h]
  · simp only [set_debug_type]
    rw [if_neg h1, if_neg h2, if_neg h3]

/-- Witness for C7 at a concrete configuration and always-successful
opens. -/
theorem c7_debug_type_resolution_witness :
    set_debug_type none (fun _ => 0) = .keepDefault ∧
    set_debug_type (some ⟨none, none⟩) (fun _ => 0) = .keepDefault ∧
    set_debug_type (some ⟨some (("none").toList), none⟩) (fun _ => 0) = .published none ∧
    set_debug_type (some ⟨some (("inline").toList), none⟩) (fun _ => 0) =
      .published (some ttyCall) ∧
    set_debug_type (some ⟨some (("file").toList), none⟩) (fun _ => 0) =
      .fatal "Cannot find/parse loader.debug_file" ∧
    set_debug_type (some ⟨some (("file").toList), some (("log").toList)⟩) (fun _ => 0) =
      .published (some (debugFileCall (("log").toList))) ∧
    set_debug_type (some ⟨some (("bogus").toList), none⟩) (fun _ => 0) =
      .fatal "Unknown loader.debug_type (allowed: inline, file, none)" :=
  ⟨(c7_debug_type_resolution none (fun _ => 0) (("bogus").toList)).1,
   (c7_debug_type_resolution none (fun _ => 0) (("bogus").toList)).2.1,
   (c7_debug_type_resolution none (fun _ => 0) (("bogus").toList)).2.2.1,
   (c7_debug_type_resolution none (fun _ => 0) (("bogus").toList)).2.2.2.1 (by norm_num),
   (c7_debug_type_resolution none (fun _ => 0) (("bogus").toList)).2.2.2.2.1,
   (c7_debug_type_resolution none (fun _ => 0) (("bogus").toList)).2.2.2.2.2.1
     (("log").toList) (by norm_num),
   (c7_debug_type_resolution none (fun _ => 0) (("bogus").toList)).2.2.2.2.2.2
     (by decide) (by decide) (by decide)⟩

/-- C8: the manifest-resolution step of `pal_main`: with no manifest handle
but an executable handle, it first tries to open the normalized executable
identity with the `.manifest` suffix appended, then on failure tries the
fixed literal location `file:manifest`, and if both fail it terminates
fatally with the cannot-find-manifest diagnostic; with neither handle it
terminates fatally with the must-have-manifest-or-executable diagnostic. -/
theorem c8_manifest_resolution (env : ResolveEnv) :
    resolveManifest false false env = .error "Must have manifest or executable" ∧
    (∀ eu norm, env.execNameRet = .ok eu → env.normPath eu = .ok norm →
      (env.openRet (norm ++ manifestSuffix) = 0 →
        resolveManifest false true env = .ok (.derivedExec (norm ++ manifestSuffix))) ∧
      (env.openRet (norm ++ manifestSuffix) ≠ 0 → env.openRet fallbackUri = 0 →
        resolveManifest false true env = .ok .fallback) ∧
      (env.openRet (norm ++ manifestSuffix) ≠ 0 → env.openRet fallbackUri ≠ 0 →
        resolveManifest false true env = .error "Cannot find manifest file")) := by
  refine ⟨rfl, fun eu norm h1 h2 => ⟨fun h3 => ?_, fun h3 h4 => ?_, fun h3 h4 => ?_⟩⟩
  · simp [resolveManifest, resolveFromNames, h1, h2, h3]
  · simp [resolveManifest, resolveFromNames, h1, h2, h3, h4]
  · simp [resolveManifest, resolveFromNames, h1, h2, h3, h4]

/-- A `ResolveEnv` on which the executable name resolves but every manifest
open attempt fails, for the C8 witness. -/
def resEnvEx : ResolveEnv :=
  { execNameRet := .ok (("file:app").toList), manifestNameRet := .error (-1),
    normPath := fun u => .ok u, openRet := fun _ => 1 }

/-- Witness for C8: with no handles the fatal diagnostic is
must-have-manifest-or-executable, and with only an executable handle and no
openable candidate it is cannot-find-manifest. -/
theorem c8_manifest_resolution_witness :
    resolveManifest false false resEnvEx = .error "Must have manifest or executable" ∧
    resolveManifest false true resEnvEx = .error "Cannot find manifest file" :=
  ⟨(c8_manifest_resolution resEnvEx).1,
   ((c8_manifest_resolution resEnvEx).2 (("file:app").toList) (("file:app").toList)
     rfl rfl).2.2 (by decide) (by decide)⟩

/-- C9 (implicit): with none of the argv opt-ins set (no
`loader.insecure__use_cmdline_argv`, no `loader.argv_src_file`, no
`loader.argv0_override`), the argument-building step terminates fatally for
every host argument vector — including the one-argument vector and the
empty vector. -/
theorem c9_no_optin_always_fatal (files : Str → HostFile) (hostArgs : List Str) :
    buildArgv none false none files hostArgs = .error policyMsg := by
  simp [buildArgv, applyArgv0]

/-- C3: with neither `loader.insecure__use_cmdline_argv` nor
`loader.argv_src_file` set, any host argument beyond the first slot is a
fatal configuration failure; the build succeeds exactly when an
argv0-override is present and at most one argument slot is filled. -/
theorem c3_extra_args_rejected (ov : Option Str) (files : Str → HostFile)
    (hostArgs : List Str) :
    (2 ≤ hostArgs.length → buildArgv ov false none files hostArgs = .error policyMsg) ∧
    ((∃ a, buildArgv ov false none files hostArgs = .ok a) ↔
      (ov.isSome = true ∧ hostArgs.length ≤ 1)) := by
  cases ov with
  | none =>
    refine ⟨fun _ => by simp [buildArgv], ?_⟩
    simp [buildArgv, applyArgv0]
  | some o =>
    cases hostArgs with
    | nil =>
      refine ⟨fun h => by simp at h, ?_⟩
      simp [buildArgv, applyArgv0]
    | cons a rest =>
      cases rest with
      | nil =>
        refine ⟨fun h => by simp at h, ?_⟩
        simp [buildArgv, applyArgv0]
      | cons b rest2 =>
        refine ⟨fun h => ?_, ?_⟩
        · simp [buildArgv, applyArgv0]
        · constructor
          · rintro ⟨x, hx⟩
            simp [buildArgv, applyArgv0] at hx
          · rintro ⟨-, hlen⟩
            simp at hlen

/-- Witness for C3: a second host argument is rejected, and a lone
override-synthesized slot is accepted. -/
theorem c3_extra_args_rejected_witness :
    buildArgv (some (("app0").toList)) false none (fun _ => okFile [])
      [("a").toList, ("b").toList] = .error policyMsg ∧
    ((∃ a, buildArgv (some (("app0").toList)) false none (fun _ => okFile []) [] = .ok a) ↔
      ((some (("app0").toList)).isSome = true ∧ ([] : List Str).length ≤ 1)) :=
  ⟨(c3_extra_args_rejected (some (("app0").toList)) (fun _ => okFile [])
      [("a").toList, ("b").toList]).1 (by decide),
   (c3_extra_args_rejected (some (("app0").toList)) (fun _ => okFile []) []).2⟩

/-- File-system oracle used by the C1 theorems: every URI reads as the file
`f1 NUL`. -/
def c1Files : Str → HostFile := fun _ => okFile (("f1").toList ++ [nulChar])

/-- C1 counterexample: with `loader.insecure__use_cmdline_argv = 1` and
`loader.argv_src_file` both set, the final argument sequence is the
host-supplied one, not the contents of the source file — the source file is
ignored, so it does not always win. -/
theorem c1_src_file_counterexample :
    buildArgv none true (some (("file:args").toList)) c1Files
      [("app").toList, ("x").toList] = .ok [("app").toList, ("x").toList] ∧
    cstrings (("f1").toList ++ [nulChar]) = [("f1").toList] ∧
    ([("app").toList, ("x").toList] : List Str) ≠ [("f1").toList] :=
  ⟨rfl, by decide, by decide⟩

/-- C1 amended: the argv-source-file option wins over host-supplied
arguments exactly when the trust-host-argv switch is unset: with
`loader.insecure__use_cmdline_argv` at 0 and `loader.argv_src_file` set, a
successfully read source file replaces the argument sequence with its
sentinel-delimited contents and the host-supplied arguments are discarded
(when the switch is 1, the host arguments are kept and the file is never
read). -/
theorem c1_src_file_wins_when_cmdline_unset (ov : Option Str) (uri : Str)
    (files : Str → HostFile) (hostArgs : List Str) (c : Str)
    (h1 : files uri = okFile c) (h2 : c = [] ∨ c.getLast? = some nulChar) :
    buildArgv ov false (some uri) files hostArgs = .ok (cstrings c) := by
  have hfmt : ¬ (c ≠ [] ∧ c.getLast? ≠ some nulChar) := by
    rcases h2 with h | h <;> simp [h]
  simp [buildArgv, load_cstring_array, okFile, h1, hfmt]

/-- Witness for the amended C1: host arguments `app x` are discarded in
favor of the file contents `f1`. -/
theorem c1_src_file_wins_when_cmdline_unset_witness :
    buildArgv none false (some (("file:args").toList)) c1Files
      [("app").toList, ("x").toList] = .ok [("f1").toList] := by
  have h := c1_src_file_wins_when_cmdline_unset none (("file:args").toList) c1Files
    [("app").toList, ("x").toList] (("f1").toList ++ [nulChar]) rfl (Or.inr (by decide))
  have hc : cstrings (("f1").toList ++ [nulChar]) = [("f1").toList] := by decide
  rw [h, hc]

end Graphene
